import Mathlib

/-!
Shallow embedding of the summarize-youtube-video-with-ai command pipeline
(src/src/summarizeCurrentTab.tsx, src/unnamed/part_000, src/unnamed/part_001).

The orchestrator `init` sequences: browser-extension access check, active-tab
resolution, video-data fetch, transcript fetch, summarization.  The external
collaborators (BrowserExtension.getTabs, ytdl validators, getVideoData,
getVideoTranscript, the AI backend) are modelled as an environment of
per-run results; the React state hooks become an explicit `PipelineState`
record.  A second, small-step machine (`segStep` / `gStep` / `exec`) models
two interleaved activations of `init` with the AbortController logic at the
exact program points where summarizeCurrentTab.tsx checks
`abortController.signal.aborted`.
-/

namespace SummarizeYoutube

/-- Thumbnail record: the only field the command reads is `url`
(`thumbnail?.url` in summarizeCurrentTab.tsx). -/
structure Thumbnail where
  url : String
deriving DecidableEq, Repr

/-- VideoDataTypes, the metadata record destructured at
summarizeCurrentTab.tsx line 171. -/
structure VideoDataTypes where
  title : String
  ownerChannelName : String
  ownerProfileUrl : String
  publishDate : String
  duration : String
  viewCount : String
  video_url : String
  thumbnail : Thumbnail
deriving DecidableEq, Repr

/-- A browser tab as returned by BrowserExtension.getTabs: the code reads
`tab.url` and `tab.active`. -/
structure Tab where
  url : String
  active : Bool
deriving DecidableEq, Repr

/-- The AI backend chooser from the Preferences type (src/unnamed/part_000):
`chosenAi: "anthropic" | "openai" | "raycastai"`. -/
inductive Backend
  | anthropic
  | openai
  | raycastai
deriving DecidableEq, Repr

/-- The Preferences record (src/unnamed/part_000). -/
structure Preferences where
  chosenAi : Backend
  creativity : String
  model : String
  openaiApiToken : String
  anthropicApiToken : String
  language : String
deriving DecidableEq, Repr

/-- The pipeline-visible React state of the command component:
`summary`, `summaryIsLoading`, `transcript`, `videoData`
(summarizeCurrentTab.tsx lines 20-23). -/
structure PipelineState where
  summary : Option String
  summaryIsLoading : Bool
  transcript : Option String
  videoData : Option VideoDataTypes
deriving DecidableEq, Repr

/-- The initial values of the four useState hooks in
summarizeCurrentTab.tsx (summary/transcript/videoData undefined,
summaryIsLoading false). -/
def initialPipelineState : PipelineState :=
  { summary := none, summaryIsLoading := false, transcript := none, videoData := none }

/-- `resetStates` (summarizeCurrentTab.tsx lines 30-35): sets summary,
transcript and videoData to undefined and summaryIsLoading to false. -/
def resetStates (s : PipelineState) : PipelineState :=
  { s with summary := none, transcript := none, videoData := none, summaryIsLoading := false }

/-- The failure notifications the command shows via showToast, tagged by the
branch of summarizeCurrentTab.tsx that produces them. -/
inductive ToastMsg
  | extensionRequired
  | noActiveVideoTab
  | invalidVideoReference
  | metadataFetchError (cause : String)
  | noTranscriptGuidance
  | transcriptFetchError (cause : String)
  | summaryBackendError (backend : Backend) (cause : String)
  | unexpectedError (cause : String)
deriving DecidableEq, Repr

/-- The error record of the spec's SummaryBackendError: backend and cause. -/
structure SummaryBackendError where
  backend : Backend
  cause : String
deriving DecidableEq, Repr

/-- Observable events of one command lifecycle: collaborator calls and
toast notifications, in program order. -/
inductive Event
  | getTabsCall
  | getVideoDataCall
  | getVideoTranscriptCall
  | summaryBackendCall
  | followUpBackendCall
  | toast (m : ToastMsg)
deriving DecidableEq, Repr

/-- The collaborator environment of one pipeline run: the browser-extension
access flag, the tabs list, the two ytdl validators, and the outcomes the
three fetch collaborators would deliver if called in this run. -/
structure Env where
  canAccess : Bool
  tabs : List Tab
  validateURL : String → Bool
  validateID : String → Bool
  videoDataResult : Except String VideoDataTypes
  transcriptResult : Except String (Option String)
  summaryResult : Except SummaryBackendError String

/-- The YouTube watch-URL test applied to the active tab
(summarizeCurrentTab.tsx line 68). -/
def watchUrlStart : String := "https://www.youtube.com/watch?v="

/-- JavaScript's `a.startsWith(b)` on strings, phrased over the character
lists so that it evaluates by kernel reduction. -/
def strStartsWith (s p : String) : Bool := p.data.isPrefixOf s.data

/-- JavaScript falsiness of the transcript value at
`if (!transcriptText)` (line 110): undefined or the empty string. -/
def isFalsy : Option String → Bool
  | none => true
  | some t => t == ""

/-- Active-tab resolution (summarizeCurrentTab.tsx lines 66-88): find the
active tab; if there is none or its URL does not start with the watch
prefix show the "Please open a YouTube video" failure; otherwise if the URL
passes neither ytdl.validateURL nor ytdl.validateID show the
"Invalid URL/ID" failure; otherwise yield the video URL. -/
def resolveActiveVideo (env : Env) : Except ToastMsg String :=
  match env.tabs.find? (fun t => t.active) with
  | none => Except.error ToastMsg.noActiveVideoTab
  | some tab =>
    if ¬ strStartsWith tab.url watchUrlStart then Except.error ToastMsg.noActiveVideoTab
    else if ¬ env.validateURL tab.url && ¬ env.validateID tab.url then
      Except.error ToastMsg.invalidVideoReference
    else Except.ok tab.url

/-- Modelled from the spec: src/hooks/useGetSummary is not under src/ (only
its caller is).  Per the spec's SummaryEngine contract, one summarization
request is issued; on success the summary text is stored and the loading
flag cleared; on backend error a SummaryBackendError carrying backend and
cause is surfaced as a summarization-stage notification and the loading
flag cleared; the error is handled at this step boundary and not rethrown
to the caller. -/
def useGetSummary (result : Except SummaryBackendError String) (s : PipelineState) :
    PipelineState × List Event :=
  match result with
  | Except.ok text =>
    ({ s with summary := some text, summaryIsLoading := false }, [Event.summaryBackendCall])
  | Except.error e =>
    ({ s with summaryIsLoading := false },
      [Event.summaryBackendCall, Event.toast (ToastMsg.summaryBackendError e.backend e.cause)])

/-- The `init` function of summarizeCurrentTab.tsx (lines 38-151) as run by
a single, never-superseded activation (the abort signal stays false): reset
state, set loading, gate on extension access, resolve the active video,
fetch metadata, fetch the transcript, then summarize.  Returns the final
pipeline state and the event list (collaborator calls and toasts) in
program order. -/
def init (env : Env) (s : PipelineState) : PipelineState × List Event :=
  let s0 := { resetStates s with summaryIsLoading := true }
  if env.canAccess = false then
    ({ s0 with summaryIsLoading := false }, [Event.toast ToastMsg.extensionRequired])
  else
    match resolveActiveVideo env with
    | Except.error t =>
      ({ s0 with summaryIsLoading := false }, [Event.getTabsCall, Event.toast t])
    | Except.ok _ =>
      match env.videoDataResult with
      | Except.error msg =>
        ({ s0 with summaryIsLoading := false },
          [Event.getTabsCall, Event.getVideoDataCall,
           Event.toast (ToastMsg.metadataFetchError msg)])
      | Except.ok data =>
        let s1 := { s0 with videoData := some data }
        match env.transcriptResult with
        | Except.error msg =>
          ({ s1 with summaryIsLoading := false },
            [Event.getTabsCall, Event.getVideoDataCall, Event.getVideoTranscriptCall,
             Event.toast (ToastMsg.transcriptFetchError msg)])
        | Except.ok tr =>
          if isFalsy tr then
            ({ s1 with summaryIsLoading := false },
              [Event.getTabsCall, Event.getVideoDataCall, Event.getVideoTranscriptCall,
               Event.toast ToastMsg.noTranscriptGuidance])
          else
            let s2 := { s1 with transcript := tr }
            let r := useGetSummary env.summaryResult s2
            (r.1, [Event.getTabsCall, Event.getVideoDataCall, Event.getVideoTranscriptCall] ++ r.2)

/-- Modelled from the spec: src/hooks/useFollowUpQuestion is not under src/
(only its caller is).  Per the spec's FollowUpEngine contract, the answer is
produced from the question and the held transcript alone (no re-fetch of
tabs, metadata or transcript) and replaces the displayed summary text. -/
def useFollowUpQuestion (followUp : String → String → String) (question : String)
    (transcript : String) (s : PipelineState) : PipelineState × List Event :=
  ({ s with summary := some (followUp question transcript) }, [Event.followUpBackendCall])

/-- `askQuestion` (summarizeCurrentTab.tsx lines 164-167): if the question
or the held transcript is undefined, return without doing anything;
otherwise delegate to useFollowUpQuestion with the held transcript. -/
def askQuestion (followUp : String → String → String) (question : Option String)
    (s : PipelineState) : PipelineState × List Event :=
  match question, s.transcript with
  | some q, some t => useFollowUpQuestion followUp q t s
  | _, _ => (s, [])

/-- Outcome of one caption-retrieval attempt by the transcript provider for
one language: success, a typed "track not found for this language" failure,
or any other failure (network, blocked video, malformed payload). -/
inductive ProviderResult
  | ok (text : String)
  | notFoundForLang
  | err (cause : String)
deriving DecidableEq, Repr

/-- Outcome of the transcript fetch as a whole: transcript text, the
explicit no-transcript result, or a propagated TranscriptFetchError. -/
inductive TranscriptOutcome
  | text (t : String)
  | noTranscript
  | fetchError (cause : String)
deriving DecidableEq, Repr

/-- Modelled from the spec: src/utils/getVideoTranscript.ts is not under
src/ (only its caller at summarizeCurrentTab.tsx line 109 is).  Per the
spec's TranscriptFetcher algorithm: attempt caption retrieval for each
language of the ordered list in turn; a "track not found for language"
failure moves on to the next language; a success returns that language's
text; exhausting all languages yields the explicit no-transcript result;
any other failure propagates as TranscriptFetchError rather than being
treated as no-transcript.  Returns the outcome together with the ordered
list of languages for which the provider was actually called. -/
def getVideoTranscript (provider : String → ProviderResult) :
    List String → TranscriptOutcome × List String
  | [] => (TranscriptOutcome.noTranscript, [])
  | l :: rest =>
    match provider l with
    | ProviderResult.ok t => (TranscriptOutcome.text t, [l])
    | ProviderResult.notFoundForLang =>
      let r := getVideoTranscript provider rest
      (r.1, l :: r.2)
    | ProviderResult.err c => (TranscriptOutcome.fetchError c, [l])

/-- Identifier of one of two interleaved activations of the command. -/
inductive RunId
  | A
  | B
deriving DecidableEq, Repr

/-- Per-run control state of the small-step machine: `pc` is the index of
the next atomic segment of `init` to execute (segments are the maximal
synchronous stretches between the `await` suspension points; pc 5 means the
run has returned), `aborted` mirrors `abortController.signal.aborted` for
this run's controller, and `ready` records that the run completed the whole
pipeline with a summary produced. -/
structure RunState where
  pc : Nat
  aborted : Bool
  ready : Bool
deriving DecidableEq, Repr

/-- One atomic segment of `init` (summarizeCurrentTab.tsx lines 38-151) for
the run `r` against shared state `s`.  The segments and the exact
placement of the `abortController.signal.aborted` checks follow the source:

* pc 0: resetStates, setSummaryIsLoading(true), extension-access gate, the
  line-63 aborted check, then suspend on `await BrowserExtension.getTabs()`;
* pc 1 (resumed from getTabs): active-tab and URL validation, the line-92
  aborted check, then suspend on `await getVideoData(video)`;
* pc 2 (resumed from getVideoData): on success `setVideoData(data)` with no
  aborted check before it (line 94), then the line-108 aborted check, then
  suspend on `await getVideoTranscript(video)`; on error the catch at
  lines 95-104 clears the loading flag with no aborted check;
* pc 3 (resumed from getVideoTranscript): the falsy check and guidance
  branch (lines 110-121, no aborted check), `setTranscript` (line 122, no
  aborted check before it), the line-125 aborted check, then suspend on the
  summarization request; the catch at lines 131-140 clears the loading flag
  only when not aborted;
* pc 4 (resumed from the summarization request, the useGetSummary
  continuation): store the summary or surface the backend error, clear the
  loading flag. -/
def segStep (env : Env) (r : RunState) (s : PipelineState) : RunState × PipelineState :=
  if r.pc = 0 then
    let s1 := { resetStates s with summaryIsLoading := true }
    if env.canAccess = false then
      ({ r with pc := 5 }, { s1 with summaryIsLoading := false })
    else if r.aborted then ({ r with pc := 5 }, s1)
    else ({ r with pc := 1 }, s1)
  else if r.pc = 1 then
    match resolveActiveVideo env with
    | Except.error _ => ({ r with pc := 5 }, { s with summaryIsLoading := false })
    | Except.ok _ =>
      if r.aborted then ({ r with pc := 5 }, s)
      else ({ r with pc := 2 }, s)
  else if r.pc = 2 then
    match env.videoDataResult with
    | Except.error _ => ({ r with pc := 5 }, { s with summaryIsLoading := false })
    | Except.ok data =>
      let s1 := { s with videoData := some data }
      if r.aborted then ({ r with pc := 5 }, s1)
      else ({ r with pc := 3 }, s1)
  else if r.pc = 3 then
    match env.transcriptResult with
    | Except.error _ =>
      if r.aborted then ({ r with pc := 5 }, s)
      else ({ r with pc := 5 }, { s with summaryIsLoading := false })
    | Except.ok tr =>
      if isFalsy tr then ({ r with pc := 5 }, { s with summaryIsLoading := false })
      else
        let s1 := { s with transcript := tr }
        if r.aborted then ({ r with pc := 5 }, s1)
        else ({ r with pc := 4 }, s1)
  else if r.pc = 4 then
    match env.summaryResult with
    | Except.ok text =>
      ({ r with pc := 5, ready := true },
        { s with summary := some text, summaryIsLoading := false })
    | Except.error _ => ({ r with pc := 5 }, { s with summaryIsLoading := false })
  else (r, s)

/-- Global state of the two-activation machine: the shared pipeline-visible
state, both runs' control states, and `current`, mirroring
`activeRequestRef.current` (which run's AbortController the ref holds). -/
structure Global where
  shared : PipelineState
  runA : RunState
  runB : RunState
  current : Option RunId

/-- Abort the run whose controller the ref currently holds
(summarizeCurrentTab.tsx lines 40-42). -/
def abortRun (g : Global) : Global :=
  match g.current with
  | some RunId.A => { g with runA := { g.runA with aborted := true } }
  | some RunId.B => { g with runB := { g.runB with aborted := true } }
  | none => g

/-- One scheduler step: run `rid` executes its next atomic segment.  When a
run is at its first segment, it first aborts the previous controller held
by the ref and installs its own (lines 40-46), exactly as the synchronous
head of `init` does. -/
def gStep (envA envB : Env) (g : Global) (rid : RunId) : Global :=
  match rid with
  | RunId.A =>
    let g1 := if g.runA.pc = 0 then { abortRun g with current := some RunId.A } else g
    let rs := segStep envA g1.runA g1.shared
    { g1 with runA := rs.1, shared := rs.2 }
  | RunId.B =>
    let g1 := if g.runB.pc = 0 then { abortRun g with current := some RunId.B } else g
    let rs := segStep envB g1.runB g1.shared
    { g1 with runB := rs.1, shared := rs.2 }

/-- Initial global state: fresh pipeline state, both runs at their first
segment, no controller installed. -/
def initialGlobal : Global :=
  { shared := initialPipelineState,
    runA := { pc := 0, aborted := false, ready := false },
    runB := { pc := 0, aborted := false, ready := false },
    current := none }

/-- Execute a schedule (an interleaving of the two activations) from the
initial global state. -/
def exec (envA envB : Env) (sched : List RunId) : Global :=
  sched.foldl (gStep envA envB) initialGlobal

/-- Concrete metadata record for run A of the interleaving scenario. -/
def dataA1 : VideoDataTypes :=
  { title := "Talk A", ownerChannelName := "Ch", ownerProfileUrl := "https://www.youtube.com/c",
    publishDate := "2024-01-01", duration := "10:00", viewCount := "100",
    video_url := "https://www.youtube.com/watch?v=abc123", thumbnail := { url := "https://img/a" } }

/-- Concrete metadata record for run B, distinct from run A's. -/
def dataB1 : VideoDataTypes := { dataA1 with title := "Talk B" }

/-- A browser tab on a YouTube watch URL, marked active. -/
def watchTab : Tab := { url := "https://www.youtube.com/watch?v=abc123", active := true }

/-- Environment of run A: extension available, a YouTube tab active, all
collaborators succeed with run-A values. -/
def envA1 : Env :=
  { canAccess := true, tabs := [watchTab],
    validateURL := fun _ => true, validateID := fun _ => false,
    videoDataResult := Except.ok dataA1,
    transcriptResult := Except.ok (some "transcript A"),
    summaryResult := Except.ok "summary A" }

/-- Environment of run B: as run A but delivering run-B values. -/
def envB1 : Env :=
  { envA1 with
    videoDataResult := Except.ok dataB1,
    transcriptResult := Except.ok (some "transcript B"),
    summaryResult := Except.ok "summary B" }

/-- Schedule in which run A suspends on `await getVideoData`, run B then
supersedes it (aborting A) and completes the whole pipeline, and finally
A's getVideoData continuation is delivered. -/
def staleWriteSchedule : List RunId :=
  [RunId.A, RunId.A, RunId.B, RunId.B, RunId.B, RunId.B, RunId.B, RunId.A]

set_option maxRecDepth 100000 in
/-- C1: a run cancelled before reaching Ready must leave no trace in
pipeline-visible state once a later run reaches Ready.  The code violates
this: the aborted check precedes each await instead of following it, so the
cancelled run A's getVideoData continuation still executes
`setVideoData(data)` (summarizeCurrentTab.tsx line 94) after run B has
reached Ready, leaving A's metadata in the visible state next to B's
summary. -/
theorem cancelled_run_writes_metadata_after_ready :
    (exec envA1 envB1 staleWriteSchedule).runB.ready = true ∧
    (exec envA1 envB1 staleWriteSchedule).runA.ready = false ∧
    (exec envA1 envB1 staleWriteSchedule).runA.aborted = true ∧
    (exec envA1 envB1 staleWriteSchedule).shared.summary = some "summary B" ∧
    (exec envA1 envB1 staleWriteSchedule).shared.videoData = some dataA1 ∧
    dataA1 ≠ dataB1 := by
  decide

/-- C2: on every activation, `resetStates` returns all four
pipeline-visible fields to their initial values, and the reset happens in
the synchronous head of `init`, before the first fetch step: after the
first atomic segment of a superseding run B the shared state is exactly the
initial state with only the loading flag raised, and the first event `init`
ever emits is the getTabs call. -/
theorem reset_before_first_fetch :
    (∀ s, resetStates s = initialPipelineState) ∧
    (∀ (envA envB : Env) (g : Global), g.runB.pc = 0 → envB.canAccess = true →
      (gStep envA envB g RunId.B).shared =
        { initialPipelineState with summaryIsLoading := true }) ∧
    (∀ (env : Env) (s : PipelineState), env.canAccess = true →
      ∃ rest, (init env s).2 = Event.getTabsCall :: rest) := by
  refine ⟨fun s => rfl, ?_, ?_⟩
  · rintro envA envB ⟨sh, rA, rB, cur⟩ h0 hca
    simp only at h0
    cases cur with
    | none =>
      cases hab : rB.aborted <;>
        simp [gStep, abortRun, segStep, h0, hca, hab, resetStates, initialPipelineState]
    | some rid =>
      cases rid <;> cases hab : rB.aborted <;>
        simp [gStep, abortRun, segStep, h0, hca, hab, resetStates, initialPipelineState]
  · intro env s hca
    unfold init
    simp only [hca]
    repeat' split
    all_goals try exact ⟨_, rfl⟩
    all_goals simp_all

/-- C2 witness: the machine part at a concrete superseding activation and
the event-head part at the concrete run-B environment. -/
theorem reset_before_first_fetch_witness :
    (gStep envA1 envB1 (exec envA1 envB1 [RunId.A, RunId.A]) RunId.B).shared =
      { initialPipelineState with summaryIsLoading := true } ∧
    ∃ rest, (init envB1 initialPipelineState).2 = Event.getTabsCall :: rest :=
  ⟨reset_before_first_fetch.2.1 envA1 envB1 (exec envA1 envB1 [RunId.A, RunId.A])
      (by decide) (by decide),
    reset_before_first_fetch.2.2 envB1 initialPipelineState (by decide)⟩

/-- C3: with languages [primary, fallback1, fallback2] and a provider that
reports "not found for language" for the first two and succeeds for the
third, the transcript fetch returns the third language's text after exactly
three provider calls in order; and a provider failure that is not
"not found for language" propagates as a TranscriptFetchError immediately,
never as the no-transcript result. -/
theorem transcript_language_fallback (provider : String → ProviderResult)
    (p f1 f2 t : String)
    (h1 : provider p = ProviderResult.notFoundForLang)
    (h2 : provider f1 = ProviderResult.notFoundForLang)
    (h3 : provider f2 = ProviderResult.ok t) :
    getVideoTranscript provider [p, f1, f2] = (TranscriptOutcome.text t, [p, f1, f2]) ∧
    ∀ (c l : String) (rest : List String), provider l = ProviderResult.err c →
      getVideoTranscript provider (l :: rest) = (TranscriptOutcome.fetchError c, [l]) := by
  constructor
  · simp [getVideoTranscript, h1, h2, h3]
  · intro c l rest hl
    simp [getVideoTranscript, hl]

/-- A concrete transcript provider: captions missing for "en" and "ru",
available for "de", and any other language hits a network failure. -/
def providerW : String → ProviderResult := fun l =>
  if l == "en" then ProviderResult.notFoundForLang
  else if l == "ru" then ProviderResult.notFoundForLang
  else if l == "de" then ProviderResult.ok "hallo welt"
  else ProviderResult.err "network"

/-- C3 witness: the fallback chain and the error propagation at the
concrete provider. -/
theorem transcript_language_fallback_witness :
    getVideoTranscript providerW ["en", "ru", "de"] =
      (TranscriptOutcome.text "hallo welt", ["en", "ru", "de"]) ∧
    getVideoTranscript providerW ["xx"] = (TranscriptOutcome.fetchError "network", ["xx"]) :=
  ⟨(transcript_language_fallback providerW "en" "ru" "de" "hallo welt"
      (by decide) (by decide) (by decide)).1,
    (transcript_language_fallback providerW "en" "ru" "de" "hallo welt"
      (by decide) (by decide) (by decide)).2 "network" "xx" [] (by decide)⟩

/-- C4: when the transcript fetch delivers no transcript (undefined or
empty), the run ends in the guidance terminal: loading cleared, no summary,
the guidance toast shown, and the summarization backend never called. -/
theorem no_transcript_is_empty_result (env : Env) (s : PipelineState)
    (v : String) (d : VideoDataTypes) (tr : Option String)
    (hca : env.canAccess = true)
    (hres : resolveActiveVideo env = Except.ok v)
    (hmeta : env.videoDataResult = Except.ok d)
    (htr : env.transcriptResult = Except.ok tr)
    (hfalsy : isFalsy tr = true) :
    (init env s).1.summaryIsLoading = false ∧
    (init env s).1.summary = none ∧
    Event.toast ToastMsg.noTranscriptGuidance ∈ (init env s).2 ∧
    Event.summaryBackendCall ∉ (init env s).2 := by
  unfold init
  simp [hca, hres, hmeta, htr, hfalsy, resetStates]

/-- Environment in which the transcript provider finds no captions in any
language (getVideoTranscript delivers undefined). -/
def envNoTr : Env := { envA1 with transcriptResult := Except.ok none }

/-- C4 witness: the empty-result terminal at the concrete environment. -/
theorem no_transcript_is_empty_result_witness :
    (init envNoTr initialPipelineState).1.summaryIsLoading = false ∧
    (init envNoTr initialPipelineState).1.summary = none ∧
    Event.toast ToastMsg.noTranscriptGuidance ∈ (init envNoTr initialPipelineState).2 ∧
    Event.summaryBackendCall ∉ (init envNoTr initialPipelineState).2 :=
  no_transcript_is_empty_result envNoTr initialPipelineState
    "https://www.youtube.com/watch?v=abc123" dataA1 none rfl rfl rfl rfl rfl

/-- Shape of the init event list: either the transcript fetch is never
called, or the metadata fetch succeeded and the events start with the tabs
call, then the metadata call, then the transcript call. -/
theorem init_events_shape (env : Env) (s : PipelineState) :
    Event.getVideoTranscriptCall ∉ (init env s).2 ∨
    ((∃ d, env.videoDataResult = Except.ok d) ∧
      ∃ rest, (init env s).2 =
        Event.getTabsCall :: Event.getVideoDataCall :: Event.getVideoTranscriptCall :: rest) := by
  unfold init
  split
  · left; simp
  · split
    · left; simp
    · split
      · left; simp
      · rename_i d hd
        split
        · exact Or.inr ⟨⟨d, hd⟩, _, rfl⟩
        · split
          · exact Or.inr ⟨⟨d, hd⟩, _, rfl⟩
          · exact Or.inr ⟨⟨d, hd⟩, _, rfl⟩

/-- C5: metadata strictly first: if the metadata fetch fails the transcript
fetch is never invoked in that run, and whenever the transcript fetch is
invoked, the metadata fetch succeeded and its call precedes the transcript
call in the event order. -/
theorem metadata_fetch_strictly_before_transcript (env : Env) (s : PipelineState) :
    (∀ m, env.videoDataResult = Except.error m →
      Event.getVideoTranscriptCall ∉ (init env s).2) ∧
    (Event.getVideoTranscriptCall ∈ (init env s).2 →
      (∃ d, env.videoDataResult = Except.ok d) ∧
      ∃ rest, (init env s).2 =
        Event.getTabsCall :: Event.getVideoDataCall :: Event.getVideoTranscriptCall :: rest) := by
  constructor
  · intro m hm
    rcases init_events_shape env s with h | ⟨⟨d, hd⟩, -⟩
    · exact h
    · rw [hm] at hd
      cases hd
  · intro hmem
    rcases init_events_shape env s with h | h
    · exact absurd hmem h
    · exact h

/-- C5 witness: in the all-success environment the event order is the tabs
call, then the metadata call, then the transcript call. -/
theorem metadata_fetch_strictly_before_transcript_witness :
    (∃ d, envA1.videoDataResult = Except.ok d) ∧
    ∃ rest, (init envA1 initialPipelineState).2 =
      Event.getTabsCall :: Event.getVideoDataCall :: Event.getVideoTranscriptCall :: rest :=
  (metadata_fetch_strictly_before_transcript envA1 initialPipelineState).2 (by decide)

/-- C6: a summarization-backend failure is surfaced as the
SummaryBackendError notification carrying the backend and cause, the
loading indicator is cleared, and no transcript-stage or metadata-stage
message is shown for it. -/
theorem summary_backend_error_surfaced (env : Env) (s : PipelineState)
    (v : String) (d : VideoDataTypes) (t : String) (e : SummaryBackendError)
    (hca : env.canAccess = true)
    (hres : resolveActiveVideo env = Except.ok v)
    (hmeta : env.videoDataResult = Except.ok d)
    (htr : env.transcriptResult = Except.ok (some t))
    (ht : (t == "") = false)
    (hsum : env.summaryResult = Except.error e) :
    (init env s).1.summaryIsLoading = false ∧
    Event.toast (ToastMsg.summaryBackendError e.backend e.cause) ∈ (init env s).2 ∧
    (∀ c, Event.toast (ToastMsg.transcriptFetchError c) ∉ (init env s).2) ∧
    (∀ c, Event.toast (ToastMsg.metadataFetchError c) ∉ (init env s).2) := by
  unfold init
  simp [hca, hres, hmeta, htr, hsum, useGetSummary, isFalsy, ht]

/-- Environment in which the summarization backend rejects the request
(invalid user-supplied token for the external backend). -/
def envSumErr : Env :=
  { envA1 with summaryResult := Except.error { backend := Backend.openai, cause := "invalid token" } }

/-- C6 witness: the backend failure surfaced at the concrete environment. -/
theorem summary_backend_error_surfaced_witness :
    (init envSumErr initialPipelineState).1.summaryIsLoading = false ∧
    Event.toast (ToastMsg.summaryBackendError Backend.openai "invalid token") ∈
      (init envSumErr initialPipelineState).2 :=
  ⟨(summary_backend_error_surfaced envSumErr initialPipelineState
      "https://www.youtube.com/watch?v=abc123" dataA1 "transcript A"
      { backend := Backend.openai, cause := "invalid token" }
      rfl rfl rfl rfl rfl rfl).1,
    (summary_backend_error_surfaced envSumErr initialPipelineState
      "https://www.youtube.com/watch?v=abc123" dataA1 "transcript A"
      { backend := Backend.openai, cause := "invalid token" }
      rfl rfl rfl rfl rfl rfl).2.1⟩

/-- C7: follow-up questions never re-fetch: askQuestion leaves the held
transcript untouched and emits no tabs, metadata or transcript call; and
over a whole successful command lifecycle with two follow-up questions in
succession, the tabs, metadata and transcript collaborators are each called
exactly once, and each answer is produced from the transcript held since
the original run. -/
theorem follow_up_does_not_refetch (f : String → String → String)
    (env : Env) (s : PipelineState) (q1 q2 : String)
    (v : String) (d : VideoDataTypes) (t : String)
    (hca : env.canAccess = true)
    (hres : resolveActiveVideo env = Except.ok v)
    (hmeta : env.videoDataResult = Except.ok d)
    (htr : env.transcriptResult = Except.ok (some t))
    (ht : (t == "") = false) :
    (∀ (q : Option String) (st : PipelineState),
      (askQuestion f q st).1.transcript = st.transcript ∧
      Event.getTabsCall ∉ (askQuestion f q st).2 ∧
      Event.getVideoDataCall ∉ (askQuestion f q st).2 ∧
      Event.getVideoTranscriptCall ∉ (askQuestion f q st).2) ∧
    (init env s).1.transcript = some t ∧
    ((askQuestion f (some q1) (init env s).1).1.summary = some (f q1 t) ∧
      (askQuestion f (some q2) (askQuestion f (some q1) (init env s).1).1).1.summary =
        some (f q2 t)) ∧
    (((init env s).2 ++ (askQuestion f (some q1) (init env s).1).2 ++
        (askQuestion f (some q2) (askQuestion f (some q1) (init env s).1).1).2).count
        Event.getTabsCall = 1 ∧
      ((init env s).2 ++ (askQuestion f (some q1) (init env s).1).2 ++
        (askQuestion f (some q2) (askQuestion f (some q1) (init env s).1).1).2).count
        Event.getVideoDataCall = 1 ∧
      ((init env s).2 ++ (askQuestion f (some q1) (init env s).1).2 ++
        (askQuestion f (some q2) (askQuestion f (some q1) (init env s).1).1).2).count
        Event.getVideoTranscriptCall = 1) := by
  have hnof : ∀ (q : Option String) (st : PipelineState),
      (askQuestion f q st).1.transcript = st.transcript ∧
      Event.getTabsCall ∉ (askQuestion f q st).2 ∧
      Event.getVideoDataCall ∉ (askQuestion f q st).2 ∧
      Event.getVideoTranscriptCall ∉ (askQuestion f q st).2 := by
    intro q st
    unfold askQuestion useFollowUpQuestion
    rcases q with - | q <;> rcases hst : st.transcript with - | t0 <;> simp [hst]
  refine ⟨hnof, ?_⟩
  have htr1 : (init env s).1.transcript = some t := by
    unfold init
    simp only [hca, hres, hmeta, htr]
    simp [isFalsy, ht, useGetSummary]
    cases env.summaryResult <;> simp [useGetSummary]
  refine ⟨htr1, ?_⟩
  have hask1 : askQuestion f (some q1) (init env s).1 =
      ({ (init env s).1 with summary := some (f q1 t) }, [Event.followUpBackendCall]) := by
    unfold askQuestion useFollowUpQuestion
    simp [htr1]
  have hask2 : askQuestion f (some q2) (askQuestion f (some q1) (init env s).1).1 =
      ({ (askQuestion f (some q1) (init env s).1).1 with summary := some (f q2 t) },
        [Event.followUpBackendCall]) := by
    unfold askQuestion useFollowUpQuestion
    simp [hask1, htr1]
  have hev : (init env s).2 =
      [Event.getTabsCall, Event.getVideoDataCall, Event.getVideoTranscriptCall] ++
        (useGetSummary env.summaryResult
          { resetStates s with
              summaryIsLoading := true, transcript := some t, videoData := some d }).2 := by
    unfold init
    simp only [hca, hres, hmeta, htr]
    simp [isFalsy, ht, resetStates]
  refine ⟨⟨by rw [hask1], by rw [hask2]⟩, ?_⟩
  rw [hask2, hask1, hev]
  cases env.summaryResult <;>
    simp [useGetSummary, List.count_cons, List.count_nil, List.count_append]

/-- C7 witness: the whole lifecycle at the all-success environment with two
concrete follow-up questions. -/
theorem follow_up_does_not_refetch_witness :
    (init envA1 initialPipelineState).1.transcript = some "transcript A" ∧
    ((init envA1 initialPipelineState).2 ++
        (askQuestion (fun q t => q ++ t) (some "q1") (init envA1 initialPipelineState).1).2 ++
        (askQuestion (fun q t => q ++ t) (some "q2")
          (askQuestion (fun q t => q ++ t) (some "q1") (init envA1 initialPipelineState).1).1).2).count
      Event.getVideoTranscriptCall = 1 :=
  ⟨(follow_up_does_not_refetch (fun q t => q ++ t) envA1 initialPipelineState "q1" "q2"
      "https://www.youtube.com/watch?v=abc123" dataA1 "transcript A"
      rfl rfl rfl rfl rfl).2.1,
    (follow_up_does_not_refetch (fun q t => q ++ t) envA1 initialPipelineState "q1" "q2"
      "https://www.youtube.com/watch?v=abc123" dataA1 "transcript A"
      rfl rfl rfl rfl rfl).2.2.2.2.2⟩

/-- C8: with no tab marked active, video resolution fails with the
NoActiveVideoTab notification, the run ends with the loading flag cleared,
and no metadata, transcript or summary fetch is performed (the event list
is exactly the tabs call and the failure toast). -/
theorem no_active_tab_fails (env : Env) (s : PipelineState)
    (hca : env.canAccess = true)
    (hna : ∀ t ∈ env.tabs, t.active = false) :
    resolveActiveVideo env = Except.error ToastMsg.noActiveVideoTab ∧
    (init env s).1.summaryIsLoading = false ∧
    (init env s).2 = [Event.getTabsCall, Event.toast ToastMsg.noActiveVideoTab] := by
  have hfind : env.tabs.find? (fun t => t.active) = none := by
    rw [List.find?_eq_none]
    intro x hx
    simp [hna x hx]
  have hres : resolveActiveVideo env = Except.error ToastMsg.noActiveVideoTab := by
    unfold resolveActiveVideo
    rw [hfind]
  refine ⟨hres, ?_, ?_⟩ <;> (unfold init; simp [hca, hres])

/-- Environment whose only tab (a YouTube watch URL) is not active. -/
def envNoActive : Env :=
  { envA1 with tabs := [{ url := "https://www.youtube.com/watch?v=abc123", active := false }] }

/-- C8 witness: the failure at the concrete no-active-tab environment. -/
theorem no_active_tab_fails_witness :
    resolveActiveVideo envNoActive = Except.error ToastMsg.noActiveVideoTab ∧
    (init envNoActive initialPipelineState).1.summaryIsLoading = false ∧
    (init envNoActive initialPipelineState).2 =
      [Event.getTabsCall, Event.toast ToastMsg.noActiveVideoTab] :=
  no_active_tab_fails envNoActive initialPipelineState rfl
    (by intro t ht; simp [envNoActive, envA1] at ht; simp [ht])

/-- Environment whose active tab is on a non-YouTube URL. -/
def envWrongUrl : Env :=
  { envA1 with tabs := [{ url := "https://example.com/page", active := true }] }

/-- C9 counterexample: an active tab whose URL lacks the YouTube watch
prefix does NOT fail with InvalidVideoReference as the claim states: it
takes the same branch and notification as the no-active-tab case
(summarizeCurrentTab.tsx line 68), and the distinct "Invalid URL/ID"
notification is never shown for it. -/
theorem wrong_url_counterexample :
    resolveActiveVideo envWrongUrl = Except.error ToastMsg.noActiveVideoTab ∧
    resolveActiveVideo envWrongUrl ≠ Except.error ToastMsg.invalidVideoReference ∧
    (init envWrongUrl initialPipelineState).2 =
      [Event.getTabsCall, Event.toast ToastMsg.noActiveVideoTab] := by
  refine ⟨rfl, ?_, rfl⟩
  intro h
  rw [show resolveActiveVideo envWrongUrl = Except.error ToastMsg.noActiveVideoTab from rfl] at h
  cases h

/-- C9 amended: an active tab whose URL lacks the watch prefix fails with
the same NoActiveVideoTab failure as when no tab is active;
InvalidVideoReference is produced exactly when the active tab's URL has the
watch prefix but passes neither the URL validator nor the ID validator. -/
theorem wrong_url_fails_as_no_active_tab (env : Env) (tab : Tab)
    (hfind : env.tabs.find? (fun t => t.active) = some tab) :
    (strStartsWith tab.url watchUrlStart = false →
      resolveActiveVideo env = Except.error ToastMsg.noActiveVideoTab) ∧
    (strStartsWith tab.url watchUrlStart = true →
      env.validateURL tab.url = false → env.validateID tab.url = false →
      resolveActiveVideo env = Except.error ToastMsg.invalidVideoReference) := by
  constructor
  · intro hurl
    unfold resolveActiveVideo
    rw [hfind]
    simp [hurl]
  · intro hurl hvu hvi
    unfold resolveActiveVideo
    rw [hfind]
    simp [hurl, hvu, hvi]

/-- Environment whose active tab has the watch prefix but fails both ytdl
validators. -/
def envInvalidId : Env :=
  { envA1 with validateURL := fun _ => false, validateID := fun _ => false }

/-- C9 amended witness: both branches at concrete environments. -/
theorem wrong_url_fails_as_no_active_tab_witness :
    resolveActiveVideo envWrongUrl = Except.error ToastMsg.noActiveVideoTab ∧
    resolveActiveVideo envInvalidId = Except.error ToastMsg.invalidVideoReference :=
  ⟨(wrong_url_fails_as_no_active_tab envWrongUrl
      { url := "https://example.com/page", active := true } rfl).1 (by decide),
    (wrong_url_fails_as_no_active_tab envInvalidId watchTab rfl).2 (by decide) rfl rfl⟩

/-- C10: submitting a follow-up question while the held transcript is
undefined makes askQuestion a no-op: the state is unchanged and no event
(backend call or notification) is produced. -/
theorem ask_question_noop_without_transcript (f : String → String → String)
    (q : String) (s : PipelineState) (h : s.transcript = none) :
    askQuestion f (some q) s = (s, []) := by
  unfold askQuestion
  rw [h]

/-- C10 witness: the no-op at a concrete state holding no transcript. -/
theorem ask_question_noop_without_transcript_witness :
    askQuestion (fun q t => q ++ t) (some "why") initialPipelineState =
      (initialPipelineState, []) :=
  ask_question_noop_without_transcript (fun q t => q ++ t) "why" initialPipelineState rfl

end SummarizeYoutube
